import Mathlib

/-
Verification of the car-insurance-claim dashboard pipeline
(data_cleaning.py, metrics_summary.py, data_visualization.py, data/app.py).

The pipeline operates on pandas DataFrames.  We embed the claim-relevant
columns shallowly:

* a categorical / claim-status cell is a `CVal` (an integer code, a text
  value, or a missing value `CVal.null`, the embedding of pandas NaN in an
  object column);
* a numeric column is a `List ℚ` (or `List (Option ℚ)` when NaN can occur,
  `none` embedding NaN);
* the positional index of a list embeds the dense RangeIndex a frame has
  after `reset_index(drop=True)`.

Python floats are embedded as rationals; Python `round(x, 2)` is
round-half-to-even, embedded exactly by `roundHalfEven`.
-/

/-- A cell of a categorical column as pandas holds it: an integer code
(e.g. the raw 0/1 outcome), a text value, or NaN (`null`). -/
inductive CVal where
  | num (n : ℤ)
  | str (s : String)
  | null
deriving DecidableEq

/-- A cell of an arbitrary column of the cleaned table (used for whole-row
duplicate comparison). -/
inductive Cell where
  | num (q : ℚ)
  | str (s : String)
  | null
deriving DecidableEq

/-- A row of the cleaned table is its list of cells, in column order. -/
abbrev Row := List Cell

/-- Arithmetic mean of a list of rationals (callers guard against `[]`,
mirroring the guards / NaN-propagation of the Python code). -/
def meanQ (l : List ℚ) : ℚ := l.sum / l.length

/-- Insert into a sorted list (ascending). -/
def insertSorted (x : ℚ) : List ℚ → List ℚ
  | [] => [x]
  | y :: ys => if x ≤ y then x :: y :: ys else y :: insertSorted x ys

/-- Ascending sort, used only to take the median. -/
def sortQ (l : List ℚ) : List ℚ := l.foldr insertSorted []

/-- `Series.median()` over the non-NaN entries: middle element for odd
length, average of the two middle elements for even length. -/
def medianQ (l : List ℚ) : ℚ :=
  let s := sortQ l
  if l.length % 2 = 1 then s.getD (l.length / 2) 0
  else (s.getD (l.length / 2 - 1) 0 + s.getD (l.length / 2) 0) / 2

/-- `Series.median()` including the empty case: the median of an empty (or
all-NaN) series is NaN (`none`). -/
def medianOpt (l : List ℚ) : Option ℚ :=
  if l = [] then none else some (medianQ l)

/-- Python's `round` ties-to-even applied to a rational. -/
def roundHalfEven (x : ℚ) : ℤ :=
  let f := ⌊x⌋
  let r := x - f
  if r < 1 / 2 then f
  else if 1 / 2 < r then f + 1
  else if f % 2 = 0 then f else f + 1

/-- Python's `round(x, 2)`. -/
def round2 (x : ℚ) : ℚ := (roundHalfEven (x * 100) : ℚ) / 100

/-- Python's `int(x)`: truncation toward zero. -/
def pyIntTrunc (q : ℚ) : ℤ := q.num.tdiv (q.den : ℤ)

/-- `Series.dropna()`. -/
def dropna (col : List (Option ℚ)) : List ℚ := col.filterMap id

/-- `Series.fillna(v)`. -/
def fillna (col : List (Option ℚ)) (v : ℚ) : List ℚ :=
  col.map (fun o => o.getD v)

/-- `Series.mean()`: pandas skips NaN entries; an empty (or all-NaN)
series has mean NaN (`none`). -/
def seriesMeanOpt (col : List (Option ℚ)) : Option ℚ :=
  if dropna col = [] then none else some (meanQ (dropna col))

/-
data_cleaning.py, section 4: text standardization of object columns.
-/

/-- Python's `str(x)` on a cell, as `Series.astype(str)` applies it:
NaN stringifies to `"nan"`, integer codes to their decimal form. -/
def pyStr : CVal → String
  | .num n => toString n
  | .str s => s
  | .null => "nan"

/-- The whitespace characters Python's `str.strip()` removes (ASCII). -/
def isSpaceChar (c : Char) : Bool :=
  c = ' ' ∨ c = '\t' ∨ c = '\n' ∨ c = '\r' ∨ c = '\x0b' ∨ c = '\x0c'

/-- `str.strip()`: drop leading and trailing whitespace. -/
def stripChars (l : List Char) : List Char :=
  ((l.dropWhile isSpaceChar).reverse.dropWhile isSpaceChar).reverse

/-- `str.lower()` (ASCII letters, which is all the data holds). -/
def pyLower (s : String) : String := ⟨s.data.map Char.toLower⟩

/-- `.str.strip().str.lower()`. -/
def normalizeText (s : String) : String := pyLower ⟨stripChars s.data⟩

/-- A column has pandas dtype `object` (is selected by
`select_dtypes(include="object")`) exactly when it holds a text value;
purely numeric or all-NaN columns are numeric dtype. -/
def isTextCol (col : List CVal) : Bool :=
  col.any (fun v => match v with | .str _ => true | _ => false)

/-- data_cleaning.py section 4: for every object column,
`df[col] = df[col].astype(str).str.strip().str.lower()`; numeric-dtype
columns are not touched. -/
def textStandardize (col : List CVal) : List CVal :=
  if isTextCol col then col.map (fun v => .str (normalizeText (pyStr v)))
  else col

/-- data_cleaning.py: `df["claim_status"].replace(\x7b0: "no claim", 1: "claim"\x7d)` —
the keys are the numbers 0 and 1, so only numeric cells are replaced. -/
def replaceBinaryCodes (col : List CVal) : List CVal :=
  col.map (fun v =>
    if v = .num 0 then .str "no claim"
    else if v = .num 1 then .str "claim" else v)

/-- data_cleaning.py section 7: cells of `claim_status` outside
`["claim", "no claim"]` are set to NaN.  (The code guards the assignment
with `if not invalid_claims.empty`; when no cell is invalid the
assignment is a no-op, so the unguarded map is the same function.) -/
def validateClaimStatus (col : List CVal) : List CVal :=
  col.map (fun v =>
    if v = .str "claim" ∨ v = .str "no claim" then v else .null)

/-- The full claim_status path of data_cleaning.py, in source order:
text standardization (section 4), the 0/1 → label replacement (the
binary-columns section), then category validation (section 7). -/
def cleanClaimStatus (col : List CVal) : List CVal :=
  validateClaimStatus (replaceBinaryCodes (textStandardize col))

/-
data_cleaning.py, sections 5-6: credit_score fill and range validation.
-/

/-- data_cleaning.py section 5:
`df["credit_score"].fillna(df["credit_score"].median())` — the median is
taken over the non-missing entries; if there are none the fill value is
NaN and the missing cells stay missing. -/
def creditScoreFill (col : List (Option ℚ)) : List (Option ℚ) :=
  let m := medianOpt (col.filterMap id)
  col.map (fun v => match v with | some x => some x | none => m)

/-- data_cleaning.py section 6, credit-score rule: if any entry lies
outside [0, 1] the whole column is clipped with `clip(0, 1)` (NaN
compares false on both sides, so NaN entries are never counted invalid,
and `clip` leaves NaN unchanged). -/
def creditScoreValidate (col : List (Option ℚ)) : List (Option ℚ) :=
  if col.any (fun v => match v with
      | some x => decide (x < 0 ∨ 1 < x)
      | none => false) then
    col.map (fun v => v.map (fun x => max 0 (min x 1)))
  else col

/-- The cleaning stage's credit_score path: median fill, then range
validation. -/
def creditScoreClean (col : List (Option ℚ)) : List (Option ℚ) :=
  creditScoreValidate (creditScoreFill col)

/-
data_cleaning.py, section 6: annual_mileage positive check.  The column
reaching this point has already been filled by section 5, so it is a
plain numeric column.
-/

/-- data_cleaning.py lines 95-98: rows with `annual_mileage <= 0` are
overwritten with `df["annual_mileage"].median()` — the median of the
whole current column (the right-hand side is evaluated before the
assignment, over all entries, valid and invalid alike). -/
def annualMileageValidate (col : List ℚ) : List ℚ :=
  if col.any (fun x => decide (x ≤ 0)) then
    let m := medianQ col
    col.map (fun x => if x ≤ 0 then m else x)
  else col

/-- Modelled from the claim's words, for comparison: replace each
non-positive entry with the median of the valid (> 0) entries only. -/
def annualMileageValidateClaimed (col : List ℚ) : List ℚ :=
  col.map (fun x =>
    if x ≤ 0 then medianQ (col.filter (fun y => decide (0 < y))) else x)

/-
data_cleaning.py, section 8: duplicates.
-/

/-- `df.drop_duplicates()` keep="first": keep the first occurrence of
every row value, in order.  Followed by `reset_index(drop=True)`, which
in the positional-list embedding is the identity. -/
def dedupFirst {α : Type} [DecidableEq α] : List α → List α
  | [] => []
  | x :: xs => x :: dedupFirst (xs.filter (fun y => decide (y ≠ x)))
termination_by l => l.length
decreasing_by
  simp only [List.length_cons]
  exact Nat.lt_succ_of_le (List.length_filter_le _ _)

/-- data_cleaning.py section 8: `drop_duplicates` then
`reset_index(drop=True)` on the cleaned table. -/
def drop_duplicates (t : List Row) : List Row := dedupFirst t

/-
CSV round trip between stages: the cleaning stage persists the cleaned
table with `to_csv` and every later stage re-reads it with `read_csv`.
-/

/-- The default NA tokens of `pandas.read_csv`. -/
def pandasDefaultNaValues : List String :=
  ["", "#N/A", "#N/A N/A", "#NA", "-1.#IND", "-1.#QNAN", "-NaN", "-nan",
   "1.#IND", "1.#QNAN", "<NA>", "N/A", "NA", "NULL", "NaN", "None",
   "n/a", "nan", "null"]

/-- `to_csv` on a cell of an object column: text is written verbatim,
NaN is written as the empty field. -/
def csvWriteCell : CVal → String
  | .num n => toString n
  | .str s => s
  | .null => ""

/-- `read_csv` on a field of a non-numeric column with the default
`na_values`: an NA token becomes NaN, anything else stays text. -/
def csvReadCell (s : String) : CVal :=
  if s ∈ pandasDefaultNaValues then .null else .str s

/-- What a downstream stage sees for a cell the cleaning stage produced
in a text column: the `to_csv` / `read_csv` round trip. -/
def csvRoundTrip (v : CVal) : CVal := csvReadCell (csvWriteCell v)

/-
data/app.py: the dashboard's claim_flag and aggregator.
-/

/-- app.py: `df["claim_status"].astype(str).str.lower().map(...)` followed
by `pd.to_numeric(..., errors="coerce")`: "claim" maps to 1, "no claim"
to 0, everything else (including NaN, which stringifies to "nan") to
NaN. -/
def claimFlag (v : CVal) : Option ℚ :=
  let s := pyLower (pyStr v)
  if s = "claim" then some 1
  else if s = "no claim" then some 0 else none

/-- app.py `calculate_metrics`:
`int(data["claim_flag"].fillna(0).sum())`. -/
def total_claims (flags : List (Option ℚ)) : ℤ :=
  pyIntTrunc (fillna flags 0).sum

/-- app.py `calculate_metrics`:
`round(data["claim_flag"].dropna().mean() * 100, 2)` when the dropna'd
series is non-empty, else `0.0`. -/
def claim_rate (flags : List (Option ℚ)) : ℚ :=
  if dropna flags = [] then 0 else round2 (meanQ (dropna flags) * 100)

/-- Modelled from the spec's words, for comparison: the mean of the
binary claim indicator over the rows with a non-missing indicator,
expressed as a percentage rounded to 2 decimals, and 0.0 when no valid
rows exist. -/
def claimRateSpec (flags : List (Option ℚ)) : ℚ :=
  if flags.filterMap id = [] then 0
  else round2 (100 * (flags.filterMap id).sum / (flags.filterMap id).length)

/-
Grouped breakdowns.
-/

/-- The group keys of `groupby(col, dropna=False)` (app.py): the distinct
cell values of the key column, NaN included.  (pandas lists groups in
sorted key order; this embedding lists them in first-appearance order,
which changes nothing counted here.) -/
def groupKeys (ks : List CVal) : List CVal := dedupFirst ks

/-- The group keys of a default `groupby(col)` (metrics_summary.py):
`dropna=True`, so rows with a NaN key belong to no group. -/
def groupKeysDropna (ks : List CVal) : List CVal :=
  dedupFirst (ks.filter (fun k => decide (k ≠ .null)))

/-- app.py: `groupby(dim, dropna=False)["claim_flag"].mean() * 100`
per group (pandas mean skips NaN flags inside a group; an all-NaN group
has rate NaN). -/
def groupedClaimRate (rows : List (CVal × Option ℚ)) : List (CVal × Option ℚ) :=
  (groupKeys (rows.map Prod.fst)).map (fun k =>
    (k, (seriesMeanOpt ((rows.filter (fun r => decide (r.1 = k))).map Prod.snd)).map
          (fun q => q * 100)))

/-- The partition of rows induced by app.py's `dropna=False` grouping:
each distinct key (NaN included) with its rows. -/
def groupedBreakdown (rows : List (CVal × Option ℚ)) :
    List (CVal × List (CVal × Option ℚ)) :=
  (groupKeys (rows.map Prod.fst)).map (fun k =>
    (k, rows.filter (fun r => decide (r.1 = k))))

/-- The groups of metrics_summary.py's default grouping: rows whose key
is NaN fall into no group. -/
def groupedBreakdownDropna (rows : List (CVal × Option ℚ)) :
    List (CVal × List (CVal × Option ℚ)) :=
  (groupKeysDropna (rows.map Prod.fst)).map (fun k =>
    (k, rows.filter (fun r => decide (r.1 = k))))

/-- The sizes of the groups of a breakdown. -/
def breakdownSizes (g : List (CVal × List (CVal × Option ℚ))) : List ℕ :=
  g.map (fun p => p.2.length)

/-
data/app.py: calculate_metrics and update_dashboard as frame-passing
functions.  Every pandas operation they perform (`len`, `Series.fillna`,
`Series.dropna`, `Series.mean`, `Series.sum`, `round`, `copy`, boolean
filtering, `groupby(...).mean()`) returns a fresh object, so the frame
each step passes on is the frame it received; the second component of
the result records the state of the input frame after the call.
-/

/-- A row of the frame app.py loads, restricted to the columns the
dashboard touches. -/
structure Row8 where
  age : CVal
  gender : CVal
  driving_experience : CVal
  vehicle_year : CVal
  vehicle_ownership : CVal
  claim_status : CVal
  claim_flag : Option ℚ
  credit_score : Option ℚ
  annual_mileage : Option ℚ
  speeding_violations : Option ℚ
deriving DecidableEq

/-- The KPI dictionary `calculate_metrics` returns. -/
structure Metrics where
  total_customers : ℕ
  total_claims : ℤ
  claim_rate : ℚ
  avg_credit_score : Option ℚ
  avg_mileage : Option ℚ
deriving DecidableEq

/-- app.py `calculate_metrics(data)`: the KPIs, paired with the state of
`data` after the call (`data` is only read; the columns are present in
this frame, so the `else None` branches for absent columns do not
arise; a NaN mean is `none`). -/
def calculate_metrics (data : List Row8) : Metrics × List Row8 :=
  let flagCol := data.map Row8.claim_flag
  ({ total_customers := data.length
     total_claims := total_claims flagCol
     claim_rate := claim_rate flagCol
     avg_credit_score := (seriesMeanOpt (data.map Row8.credit_score)).map round2
     avg_mileage := (seriesMeanOpt (data.map Row8.annual_mileage)).map round2 },
   data)

/-- One dropdown filter of `update_dashboard`: `if selected: filtered_df =
filtered_df[filtered_df[col].isin(selected)]`.  An unset dropdown is
`None` and an empty selection list is falsy, so both leave the frame
unfiltered. -/
def applySel (rows : List Row8) (sel : Option (List CVal)) (f : Row8 → CVal) :
    List Row8 :=
  match sel with
  | none => rows
  | some [] => rows
  | some vs => rows.filter (fun r => decide (f r ∈ vs))

/-- The outputs of one dashboard update: the KPI metrics and the five
grouped claim-rate tables behind the bar charts. -/
structure DashOutputs where
  kpis : Metrics
  byAge : List (CVal × Option ℚ)
  byGender : List (CVal × Option ℚ)
  byExperience : List (CVal × Option ℚ)
  byOwnership : List (CVal × Option ℚ)
  byYear : List (CVal × Option ℚ)

/-- app.py `update_dashboard`: copy the global frame, apply the four
dropdown filters to the copy, compute the KPIs and the grouped rates
from the filtered copy.  The second component is the state of the
module-level `df` after the callback. -/
def update_dashboard (df : List Row8)
    (selAge selGender selExperience selYear : Option (List CVal)) :
    DashOutputs × List Row8 :=
  let t0 := df
  let t1 := applySel t0 selAge Row8.age
  let t2 := applySel t1 selGender Row8.gender
  let t3 := applySel t2 selExperience Row8.driving_experience
  let t4 := applySel t3 selYear Row8.vehicle_year
  let metrics := (calculate_metrics t4).1
  ({ kpis := metrics
     byAge := groupedClaimRate (t4.map (fun r => (r.age, r.claim_flag)))
     byGender := groupedClaimRate (t4.map (fun r => (r.gender, r.claim_flag)))
     byExperience :=
       groupedClaimRate (t4.map (fun r => (r.driving_experience, r.claim_flag)))
     byOwnership :=
       groupedClaimRate (t4.map (fun r => (r.vehicle_ownership, r.claim_flag)))
     byYear := groupedClaimRate (t4.map (fun r => (r.vehicle_year, r.claim_flag))) },
   df)

/-
Stage abort behaviour on an unreadable input file.
-/

/-- The argument a stage passes to `SystemExit` when its input file
cannot be read. -/
inductive ExitArg where
  | noArg
  | msg (s : String)
deriving DecidableEq

/-- The process exit status an uncaught `SystemExit` produces: no
argument means status 0; a non-integer argument (a message) is printed
to stderr and the status is 1. -/
def systemExitStatus : ExitArg → ℕ
  | .noArg => 0
  | .msg _ => 1

/-- metrics_summary.py, load handler: `raise SystemExit` (bare). -/
def metricsSummaryLoadExit : ExitArg := .noArg

/-- data_visualization.py, load handler: `raise SystemExit` (bare). -/
def dataVisualizationLoadExit : ExitArg := .noArg

/-- data/app.py, load handler: `raise SystemExit(f"Error: ...")`. -/
def appLoadExit (e : String) : ExitArg := .msg ("Error: " ++ e)

/-
data_visualization.py: the derived numeric claim indicator.
-/

/-- data_visualization.py:
`1 if str(x).lower() in ["yes", "claim", "1", "true"] else 0`, applied
elementwise when the claim_status column is text-typed. -/
def claim_status_num (v : CVal) : ℚ :=
  if pyLower (pyStr v) ∈ ["yes", "claim", "1", "true"] then 1 else 0

/-- The mean the charts draw from `claim_status_num` (seaborn/plotly
mean estimator): every row contributes, none are dropped, since the
derived column has no NaN. -/
def vizMeanClaim (col : List CVal) : ℚ :=
  (col.map claim_status_num).sum / col.length

/-- The spec's worked example: the five raw claim_status inputs
`[1, 0, 1, "claim", "bogus"]` (a mixed column, hence object dtype). -/
def exampleClaimStatusRaw : List CVal :=
  [.num 1, .num 0, .num 1, .str "claim", .str "bogus"]

/-
Helper lemmas about the keep-first deduplication.
-/

theorem mem_dedupFirst {α : Type} [DecidableEq α] (a : α) (l : List α) :
    a ∈ dedupFirst l ↔ a ∈ l := by
  induction l using dedupFirst.induct with
  | case1 => simp [dedupFirst]
  | case2 x xs ih =>
    rw [dedupFirst, List.mem_cons, ih, List.mem_filter, List.mem_cons]
    by_cases h : a = x <;> simp [h]

theorem dedupFirst_nodup {α : Type} [DecidableEq α] (l : List α) :
    (dedupFirst l).Nodup := by
  induction l using dedupFirst.induct with
  | case1 => simp [dedupFirst]
  | case2 x xs ih =>
    rw [dedupFirst]
    refine List.nodup_cons.mpr ⟨?_, ih⟩
    intro hx
    have hmem := (mem_dedupFirst x _).mp hx
    simp [List.mem_filter] at hmem

theorem dedupFirst_eq_self {α : Type} [DecidableEq α] {l : List α}
    (h : l.Nodup) : dedupFirst l = l := by
  induction l with
  | nil => simp [dedupFirst]
  | cons x xs ih =>
    rw [dedupFirst]
    have hx : x ∉ xs := (List.nodup_cons.mp h).1
    have hf : xs.filter (fun y => decide (y ≠ x)) = xs := by
      apply List.filter_eq_self.mpr
      intro a ha
      simp only [decide_eq_true_eq]
      exact fun hax => hx (hax ▸ ha)
    rw [hf, ih (List.nodup_cons.mp h).2]

theorem dedupFirst_idem {α : Type} [DecidableEq α] (l : List α) :
    dedupFirst (dedupFirst l) = dedupFirst l :=
  dedupFirst_eq_self (dedupFirst_nodup l)

/-
Helper lemmas about sums of group sizes.
-/

theorem length_filter_partition {β : Type} (p : β → Bool) (l : List β) :
    (l.filter p).length + (l.filter (fun a => !(p a))).length = l.length := by
  induction l with
  | nil => rfl
  | cons a t ih =>
    by_cases h : p a
    · simp [List.filter_cons, h]
      omega
    · simp [List.filter_cons, h]
      omega

theorem sum_filter_lengths {α β : Type} [DecidableEq α] (f : β → α) :
    ∀ (keys : List α) (rows : List β), keys.Nodup →
      (∀ r ∈ rows, f r ∈ keys) →
      (keys.map (fun k => (rows.filter (fun r => decide (f r = k))).length)).sum
        = rows.length := by
  intro keys
  induction keys with
  | nil =>
    intro rows _ hcov
    have hrows : rows = [] := by
      cases rows with
      | nil => rfl
      | cons r t => exact absurd (hcov r (List.mem_cons_self r t)) (by simp)
    subst hrows; rfl
  | cons k ks ih =>
    intro rows hnd hcov
    have hk : k ∉ ks := (List.nodup_cons.mp hnd).1
    have hnd2 : ks.Nodup := (List.nodup_cons.mp hnd).2
    have hcov2 : ∀ r ∈ rows.filter (fun r => !(decide (f r = k))), f r ∈ ks := by
      intro r hr
      have h1 := List.mem_filter.mp hr
      have h2 : f r ≠ k := by simpa using h1.2
      rcases List.mem_cons.mp (hcov r h1.1) with h | h
      · exact absurd h h2
      · exact h
    have hterm : ∀ k2 ∈ ks,
        (rows.filter (fun r => decide (f r = k2))).length
          = ((rows.filter (fun r => !(decide (f r = k)))).filter
              (fun r => decide (f r = k2))).length := by
      intro k2 hk2
      have hkk : k2 ≠ k := fun he => hk (he ▸ hk2)
      have hlist : rows.filter (fun r => decide (f r = k2))
          = (rows.filter (fun r => !(decide (f r = k)))).filter
              (fun r => decide (f r = k2)) := by
        rw [List.filter_filter]
        apply List.filter_congr
        intro r _
        by_cases h : f r = k2
        · have hne : f r ≠ k := by rw [h]; exact hkk
          simp [h, hne, hkk]
        · simp [h]
      rw [hlist]
    rw [List.map_cons, List.sum_cons,
      List.map_congr_left hterm,
      ih (rows.filter (fun r => !(decide (f r = k)))) hnd2 hcov2]
    exact length_filter_partition (fun r => decide (f r = k)) rows

theorem sum_filter_lengths_sub {α β : Type} [DecidableEq α]
    (f : β → α) (p : α → Bool) (rows : List β) :
    ((dedupFirst ((rows.map f).filter p)).map
        (fun k => (rows.filter (fun r => decide (f r = k))).length)).sum
      = (rows.filter (fun r => p (f r))).length := by
  have hnd := dedupFirst_nodup ((rows.map f).filter p)
  have hcov : ∀ r ∈ rows.filter (fun r => p (f r)),
      f r ∈ dedupFirst ((rows.map f).filter p) := by
    intro r hr
    have h1 := List.mem_filter.mp hr
    refine (mem_dedupFirst _ _).mpr (List.mem_filter.mpr ⟨?_, h1.2⟩)
    exact List.mem_map.mpr ⟨r, h1.1, rfl⟩
  have h := sum_filter_lengths f (dedupFirst ((rows.map f).filter p))
    (rows.filter (fun r => p (f r))) hnd hcov
  rw [← h]
  refine congrArg List.sum (List.map_congr_left ?_)
  intro k hk
  have hpk : p k = true := by
    have hmem := (mem_dedupFirst _ _).mp hk
    exact (List.mem_filter.mp hmem).2
  have hlist : rows.filter (fun r => decide (f r = k))
      = (rows.filter (fun r => p (f r))).filter
          (fun r => decide (f r = k)) := by
    rw [List.filter_filter]
    apply List.filter_congr
    intro r _
    by_cases h2 : f r = k
    · simp [h2, hpk]
    · simp [h2]
  rw [hlist]

/-
Claim theorems.
-/

/-- C7: deduplication (drop exact-duplicate rows keeping the first
occurrence, then reassign a dense zero-based index) is idempotent:
applying it twice yields the same table as applying it once. -/
theorem drop_duplicates_idempotent :
    ∀ t : List Row, drop_duplicates (drop_duplicates t) = drop_duplicates t :=
  fun t => dedupFirst_idem t

/-- C8: aggregation never mutates its input table.  `calculate_metrics`
returns its input frame unchanged, and `update_dashboard` (which copies
the frame, filters the copy by the selected values, and aggregates the
copy) leaves the module-level frame unchanged for every filter
selection. -/
theorem aggregation_pure :
    (∀ data : List Row8, (calculate_metrics data).2 = data) ∧
    (∀ (df : List Row8) (sa sg se sy : Option (List CVal)),
        (update_dashboard df sa sg se sy).2 = df) :=
  ⟨fun _ => rfl, fun _ _ _ _ _ => rfl⟩

/-- C3: on an unreadable input file, the load handlers of
metrics_summary.py and data_visualization.py raise a bare `SystemExit`,
which terminates the process with exit status 0, not a non-zero status;
only the dashboard stage (data/app.py) passes a message to `SystemExit`
and exits with status 1. -/
theorem load_failure_exit_status :
    systemExitStatus metricsSummaryLoadExit = 0 ∧
    systemExitStatus dataVisualizationLoadExit = 0 ∧
    ∀ e : String, systemExitStatus (appLoadExit e) = 1 :=
  ⟨rfl, rfl, fun _ => rfl⟩

/-- C4: for every table in which no row has a non-missing claim
indicator (the empty table included), the aggregator's claim rate is
exactly 0. -/
theorem claim_rate_empty_valid_zero :
    ∀ flags : List (Option ℚ), (∀ x ∈ flags, x = none) →
      claim_rate flags = 0 := by
  intro flags h
  have hnil : dropna flags = [] := by
    simp only [dropna, List.filterMap_eq_nil_iff]
    intro a ha
    simpa using h a ha
  simp [claim_rate, hnil]

/-- C4 witness: the claim-rate of a two-row table whose indicators are
both missing. -/
theorem claim_rate_empty_valid_zero_witness :
    claim_rate [none, none] = 0 :=
  claim_rate_empty_valid_zero [none, none] (by decide)

/-- C6 counterexample: metrics_summary.py groups with the default
`dropna=True`, so on a one-row table whose category value is missing the
group sizes sum to 0, not to the row count 1. -/
theorem grouped_dropna_loses_rows :
    (breakdownSizes (groupedBreakdownDropna [(CVal.null, some 1)])).sum ≠
      ([(CVal.null, some 1)] : List (CVal × Option ℚ)).length := by
  simp [breakdownSizes, groupedBreakdownDropna, groupKeysDropna, dedupFirst]

/-- C6 (amended): the dashboard's grouped breakdowns
(`groupby(dim, dropna=False)` in app.py) partition all rows — the sum of
the group sizes equals the table's row count, with missing category
values forming their own group — while the breakdowns of
metrics_summary.py (default `groupby`, `dropna=True`) cover exactly the
rows with a non-missing category value. -/
theorem grouped_breakdown_sizes :
    (∀ rows : List (CVal × Option ℚ),
        (breakdownSizes (groupedBreakdown rows)).sum = rows.length) ∧
    (∀ rows : List (CVal × Option ℚ),
        (breakdownSizes (groupedBreakdownDropna rows)).sum =
          (rows.filter (fun r => decide (r.1 ≠ CVal.null))).length) := by
  constructor
  · intro rows
    simp only [breakdownSizes, groupedBreakdown, List.map_map]
    exact sum_filter_lengths Prod.fst (groupKeys (rows.map Prod.fst)) rows
      (dedupFirst_nodup _)
      (fun r hr => (mem_dedupFirst _ _).mpr (List.mem_map.mpr ⟨r, hr, rfl⟩))
  · intro rows
    simp only [breakdownSizes, groupedBreakdownDropna, List.map_map]
    exact sum_filter_lengths_sub Prod.fst (fun k => decide (k ≠ CVal.null)) rows

/-
Evaluation helpers for the worked example and for `round2`.
-/

theorem roundHalfEven_intCast (n : ℤ) : roundHalfEven ((n : ℚ)) = n := by
  unfold roundHalfEven
  simp only [Int.floor_intCast, sub_self]
  norm_num

theorem round2_intCast (n : ℤ) : round2 ((n : ℚ)) = (n : ℚ) := by
  unfold round2
  have h : ((n : ℚ) * 100) = (((n * 100 : ℤ) : ℚ)) := by push_cast; ring
  rw [h, roundHalfEven_intCast]
  push_cast
  rw [mul_div_assoc]
  norm_num

theorem example_flags_eval :
    (cleanClaimStatus exampleClaimStatusRaw).map claimFlag
      = [none, none, none, some 1, none] := by
  decide

theorem example_total_claims :
    total_claims ((cleanClaimStatus exampleClaimStatusRaw).map claimFlag) = 1 := by
  rw [example_flags_eval]
  have hfill : fillna [none, none, none, some (1 : ℚ), none] 0
      = [0, 0, 0, 1, 0] := by decide
  unfold total_claims
  rw [hfill]
  have hsum : ([(0 : ℚ), 0, 0, 1, 0]).sum = 1 := by norm_num
  rw [hsum]
  decide

theorem example_claim_rate :
    claim_rate ((cleanClaimStatus exampleClaimStatusRaw).map claimFlag) = 100 := by
  rw [example_flags_eval]
  have hd : dropna [none, none, none, some (1 : ℚ), none] = [1] := by decide
  unfold claim_rate
  rw [hd, if_neg (List.cons_ne_nil 1 [])]
  have hm : meanQ [(1 : ℚ)] = 1 := by norm_num [meanQ]
  rw [hm, one_mul]
  have hc : ((100 : ℚ)) = (((100 : ℤ) : ℚ)) := by norm_num
  rw [hc, round2_intCast]

/-- C1 counterexample: on the five claim_status inputs
`[1, 0, 1, "claim", "bogus"]` the cleaning stage stringifies the numeric
codes (section 4 text standardization runs before the 0/1 → label
replacement, whose keys are numbers and no longer match), so only
`"claim"` survives category validation: the aggregator computes
`total_claims = 1` and `claim_rate = 100.0`, not 3 and 75.0. -/
theorem claim_rate_example_counterexample :
    total_claims ((cleanClaimStatus exampleClaimStatusRaw).map claimFlag) = 1 ∧
    claim_rate ((cleanClaimStatus exampleClaimStatusRaw).map claimFlag) = 100 ∧
    ¬ (total_claims ((cleanClaimStatus exampleClaimStatusRaw).map claimFlag) = 3 ∧
       claim_rate ((cleanClaimStatus exampleClaimStatusRaw).map claimFlag) = 75) := by
  refine ⟨example_total_claims, example_claim_rate, fun hcontra => ?_⟩
  exact absurd (example_total_claims.symm.trans hcontra.1) (by norm_num)

/-- C1 (amended): for every table the aggregator's claim_rate equals the
mean of the binary claim indicator over the rows with a non-missing
indicator, scaled to a percentage and rounded to 2 decimals (0.0 with no
valid rows); on the five example inputs the cleaned column keeps one
valid row, so total_claims = 1 and claim_rate = 100.0. -/
theorem claim_rate_matches_spec_mean :
    (∀ flags : List (Option ℚ), claim_rate flags = claimRateSpec flags) ∧
    total_claims ((cleanClaimStatus exampleClaimStatusRaw).map claimFlag) = 1 ∧
    claim_rate ((cleanClaimStatus exampleClaimStatusRaw).map claimFlag) = 100 := by
  refine ⟨?_, example_total_claims, example_claim_rate⟩
  intro flags
  unfold claim_rate claimRateSpec dropna
  by_cases h : flags.filterMap id = []
  · rw [if_pos h, if_pos h]
  · rw [if_neg h, if_neg h]
    congr 1
    unfold meanQ
    ring

/-- C2 counterexample: on the mileage column `[-10, 5]` the validator
overwrites the invalid entry with `median([-10, 5]) = -5/2`, whereas the
claimed rule (median of the valid, > 0, entries) would write 5. -/
theorem annual_mileage_median_counterexample :
    annualMileageValidate [-10, 5] = [-5/2, 5] ∧
    annualMileageValidateClaimed [-10, 5] = [5, 5] ∧
    annualMileageValidate [-10, 5] ≠ annualMileageValidateClaimed [-10, 5] := by
  have hs : sortQ [(-10 : ℚ), 5] = [-10, 5] := by decide
  have hm : medianQ [(-10 : ℚ), 5] = -5/2 := by
    unfold medianQ
    rw [hs]
    norm_num [List.getD]
  have h1 : annualMileageValidate [-10, 5] = [-5/2, 5] := by
    have hany : ([(-10 : ℚ), 5].any fun x => decide (x ≤ 0)) = true := by decide
    unfold annualMileageValidate
    rw [if_pos hany]
    simp only [List.map_cons, List.map_nil]
    norm_num [hm]
  have h2 : annualMileageValidateClaimed [-10, 5] = [5, 5] := by
    have hf : ([(-10 : ℚ), 5].filter fun y => decide (0 < y)) = [5] := by decide
    have hm5 : medianQ [(5 : ℚ)] = 5 := by
      unfold medianQ
      norm_num [sortQ, insertSorted, List.getD]
    unfold annualMileageValidateClaimed
    simp only [List.map_cons, List.map_nil, hf, hm5]
    norm_num
  refine ⟨h1, h2, ?_⟩
  rw [h1, h2]
  intro hbad
  norm_num at hbad

/-- C2 (amended): the validator replaces each non-positive
annual_mileage value with the median of the whole column — computed over
all current values, the non-positive ones included — not the median of
only the valid (> 0) values. -/
theorem annual_mileage_replaced_with_overall_median :
    ∀ col : List ℚ, annualMileageValidate col =
      col.map (fun x => if x ≤ 0 then medianQ col else x) := by
  intro col
  unfold annualMileageValidate
  by_cases h : col.any (fun x => decide (x ≤ 0))
  · simp [h]
  · rw [if_neg h]
    have hall : ∀ x ∈ col, ¬ x ≤ 0 := by simpa using h
    calc col = col.map id := (List.map_id col).symm
    _ = col.map (fun x => if x ≤ 0 then medianQ col else x) :=
      List.map_congr_left (fun a ha => by simp [hall a ha])

/-- C5 counterexample: a table whose credit_score values are all missing
is untouched by the cleaning stage (the fill median of an all-NaN column
is NaN and NaN never triggers the range clip), so the cleaned column
still holds a missing value, which does not lie in [0, 1]. -/
theorem credit_score_all_missing_counterexample :
    ¬ (∀ v ∈ creditScoreClean [none],
        ∃ x : ℚ, v = some x ∧ 0 ≤ x ∧ x ≤ 1) := by
  intro h
  have h0 : (none : Option ℚ) ∈ creditScoreClean [none] := by decide
  rcases h none h0 with ⟨x, hx, -⟩
  exact Option.noConfusion hx

/-- C5 (amended): for every input table with at least one non-missing
credit_score, after the cleaning stage (median fill of missing values
followed by range validation) every value of the cleaned credit_score
column is present and lies in [0, 1]. -/
theorem credit_score_clean_in_range :
    ∀ col : List (Option ℚ), (∃ v ∈ col, v ≠ none) →
      ∀ v ∈ creditScoreClean col, ∃ x : ℚ, v = some x ∧ 0 ≤ x ∧ x ≤ 1 := by
  intro col hex v hv
  obtain ⟨w, hw, hwn⟩ := hex
  obtain ⟨y, rfl⟩ := Option.ne_none_iff_exists'.mp hwn
  have hne : col.filterMap id ≠ [] := by
    intro hnil
    exact absurd (List.filterMap_eq_nil_iff.mp hnil (some y) hw) (by simp)
  have hfill : creditScoreFill col = col.map (fun u => match u with
      | some x => some x
      | none => some (medianQ (col.filterMap id))) := by
    simp only [creditScoreFill, medianOpt, if_neg hne]
  have hsome : ∀ u ∈ creditScoreFill col, ∃ x : ℚ, u = some x := by
    rw [hfill]
    intro u hu
    obtain ⟨a, -, rfl⟩ := List.mem_map.mp hu
    cases a with
    | some x => exact ⟨x, rfl⟩
    | none => exact ⟨medianQ (col.filterMap id), rfl⟩
  unfold creditScoreClean creditScoreValidate at hv
  by_cases hany : ((creditScoreFill col).any (fun u => match u with
      | some x => decide (x < 0 ∨ 1 < x)
      | none => false)) = true
  · rw [if_pos hany] at hv
    obtain ⟨u, hu, rfl⟩ := List.mem_map.mp hv
    obtain ⟨x, rfl⟩ := hsome u hu
    refine ⟨max 0 (min x 1), rfl, le_max_left _ _, ?_⟩
    exact max_le (by norm_num) (min_le_right _ _)
  · rw [if_neg hany] at hv
    obtain ⟨x, rfl⟩ := hsome v hv
    have hx : ¬ (x < 0 ∨ 1 < x) := by
      intro hbad
      exact hany (List.any_eq_true.mpr ⟨some x, hv, by simpa using hbad⟩)
    push_neg at hx
    exact ⟨x, rfl, hx.1, hx.2⟩

/-- C5 witness: the amended theorem applied to the one-row table with
credit_score 1. -/
theorem credit_score_clean_in_range_witness :
    ∃ x : ℚ, (some (1 : ℚ)) = some x ∧ 0 ≤ x ∧ x ≤ 1 :=
  credit_score_clean_in_range [some 1] ⟨some 1, by decide, by decide⟩
    (some 1) (by decide)

/-- C9 counterexample: the cleaning stage does turn a missing value of a
text column into the literal string "nan", but "nan" is a default NA
token of `read_csv`, so after the cleaned table's CSV round trip every
downstream stage sees that cell as missing again — as a null, not as a
real "nan" category. -/
theorem text_nan_roundtrip_counterexample :
    csvRoundTrip (CVal.str "nan") = CVal.null ∧
    (textStandardize [CVal.null, CVal.str "x"]).map csvRoundTrip =
      [CVal.null, CVal.str "x"] ∧
    (textStandardize [CVal.null, CVal.str "x"]).map csvRoundTrip ≠
      [CVal.str "nan", CVal.str "x"] := by
  decide

/-- C9 (amended): in the cleaning stage's in-memory table, every missing
value of a text-typed column is converted by the text standardization to
the literal lowercase string "nan" (and the column then holds no nulls
at all); but the "nan" cells do not survive as a category into the
downstream stages, because the cleaned table is persisted as CSV and the
reader parses the text "nan" as a missing value again. -/
theorem text_null_becomes_nan :
    (∀ (col : List CVal) (i : ℕ), isTextCol col = true →
        col[i]? = some CVal.null →
        (textStandardize col)[i]? = some (CVal.str "nan")) ∧
    (∀ col : List CVal, isTextCol col = true →
        CVal.null ∉ textStandardize col) ∧
    csvRoundTrip (CVal.str "nan") = CVal.null := by
  refine ⟨?_, ?_, by decide⟩
  · intro col i ht hi
    unfold textStandardize
    rw [if_pos ht, List.getElem?_map, hi]
    decide
  · intro col ht hmem
    unfold textStandardize at hmem
    rw [if_pos ht] at hmem
    obtain ⟨a, -, ha⟩ := List.mem_map.mp hmem
    exact CVal.noConfusion ha

/-- C9 witness: the amended theorem applied to a two-cell text column
whose second cell is missing. -/
theorem text_null_becomes_nan_witness :
    (textStandardize [CVal.str "x", CVal.null])[1]? = some (CVal.str "nan") :=
  text_null_becomes_nan.1 [CVal.str "x", CVal.null] 1 (by decide) (by decide)

theorem sum_claim_status_num (col : List CVal) :
    (col.map claim_status_num).sum =
      ((col.countP (fun v =>
          decide (pyLower (pyStr v) ∈ ["yes", "claim", "1", "true"]))) : ℚ) := by
  induction col with
  | nil => simp
  | cons v t ih =>
    rw [List.map_cons, List.sum_cons, ih, List.countP_cons]
    by_cases h : pyLower (pyStr v) ∈ ["yes", "claim", "1", "true"]
    · simp [claim_status_num, h]
      ring
    · simp [claim_status_num, h]

/-- C10: the visualization stage's derived claim indicator maps a cell
to 1 exactly when the lowercase of its string form is one of "yes",
"claim", "1", "true", and to 0 otherwise; a missing cell (whose string
form is "nan") maps to 0, and the chart mean keeps every row in the
denominator — unrecognized rows contribute 0 instead of being dropped. -/
theorem claim_status_num_spec :
    (∀ v : CVal, claim_status_num v = 1 ↔
        pyLower (pyStr v) ∈ ["yes", "claim", "1", "true"]) ∧
    (∀ v : CVal, claim_status_num v = 0 ↔
        pyLower (pyStr v) ∉ ["yes", "claim", "1", "true"]) ∧
    claim_status_num CVal.null = 0 ∧
    (∀ col : List CVal, col ≠ [] →
        vizMeanClaim col =
          ((col.countP (fun v =>
              decide (pyLower (pyStr v) ∈ ["yes", "claim", "1", "true"]))) : ℚ) /
            (col.length : ℚ)) := by
  refine ⟨?_, ?_, by decide, ?_⟩
  · intro v
    unfold claim_status_num
    by_cases h : pyLower (pyStr v) ∈ ["yes", "claim", "1", "true"]
    · simp [h]
    · simp [h]
  · intro v
    unfold claim_status_num
    by_cases h : pyLower (pyStr v) ∈ ["yes", "claim", "1", "true"]
    · simp [h]
    · simp [h]
  · intro col _
    unfold vizMeanClaim
    rw [sum_claim_status_num]

/-- C10 witness: the chart mean of a two-row column with one missing and
one "claim" cell, through the theorem. -/
theorem claim_status_num_spec_witness :
    vizMeanClaim [CVal.null, CVal.str "claim"] =
      ((([CVal.null, CVal.str "claim"] : List CVal).countP (fun v =>
          decide (pyLower (pyStr v) ∈ ["yes", "claim", "1", "true"]))) : ℚ) /
        (([CVal.null, CVal.str "claim"] : List CVal).length : ℚ) :=
  claim_status_num_spec.2.2.2 [CVal.null, CVal.str "claim"] (by decide)
